import Mathlib

/-!
Verification of the streaming translation pipeline of the Translator_app
repository. The Python sources are shallowly embedded as executable Lean
definitions: strings are Lean `String`s manipulated through Python-faithful
helpers (`pyStrip` models `str.strip()`, `pyLower` models `str.lower()` on
ASCII, `pyWords` models `str.split()` with no separator), wall-clock times
are rationals, and external collaborators (the Marian translation model, the
YAKE keyword extractor) are oracle function parameters.
-/

/-- Python `str.strip()`: drop leading and trailing whitespace. -/
def pyStrip (s : String) : String :=
  ⟨((s.toList.dropWhile Char.isWhitespace).reverse.dropWhile Char.isWhitespace).reverse⟩

/-- ASCII lowercasing of one character, as Python `str.lower()` acts on the
repository's ASCII texts. -/
def pyCharLower (c : Char) : Char :=
  if 'A' ≤ c ∧ c ≤ 'Z' then Char.ofNat (c.toNat + 32) else c

/-- Python `str.lower()` (ASCII fragment). -/
def pyLower (s : String) : String :=
  ⟨s.toList.map pyCharLower⟩

/-- Python `str.split()` with no argument: split on runs of whitespace,
discarding empty pieces. -/
def pyWords (s : String) : List String :=
  ((s.toList.splitOnP Char.isWhitespace).filter (· ≠ [])).map (fun l => ⟨l⟩)

/-- Python `" ".join(items)`. -/
def joinSpace : List String → String
  | [] => ""
  | [s] => s
  | s :: rest => s ++ " " ++ joinSpace rest

/-- Python `needle in hay` for strings: substring containment. -/
def strContains (hay needle : String) : Bool :=
  hay.toList.tails.any (fun t => needle.toList.isPrefixOf t)

/-- The regex check `re.search(r'[.!?]\s*$', text)` applied to an already
stripped string: the last character is terminal punctuation. -/
def endsWithTerminal (s : String) : Bool :=
  match s.toList.getLast? with
  | some c => c = '.' || c = '!' || c = '?'
  | none => false

/-- `collections.deque(maxlen := n)` append: push on the right, evict from
the left while over capacity. -/
def appendBounded {α : Type} (n : Nat) (xs : List α) (x : α) : List α :=
  let ys := xs ++ [x]
  ys.drop (ys.length - n)

/-- Python dict `m[k] = v` on an insertion-ordered association list. -/
def dictInsert {β : Type} (m : List (String × β)) (k : String) (v : β) :
    List (String × β) :=
  if (m.lookup k).isSome then
    m.map (fun p => if p.1 = k then (p.1, v) else p)
  else m ++ [(k, v)]

/-- Python `m[k] = m.get(k, 0) + 1` on an insertion-ordered association list. -/
def dictBump (m : List (String × Nat)) (k : String) : List (String × Nat) :=
  match m.lookup k with
  | some v => m.map (fun p => if p.1 = k then (p.1, v + 1) else p)
  | none => m ++ [(k, 1)]

/-- Stable descending insertion by the numeric second component, modelling
Python `sorted(items, key=lambda x: x[1], reverse=True)` (stable sort). -/
def insertByCountDesc (x : String × Nat) : List (String × Nat) → List (String × Nat)
  | [] => [x]
  | y :: ys => if y.2 ≤ x.2 then x :: y :: ys else y :: insertByCountDesc x ys

/-- Stable descending sort by count (`sorted(..., key=count, reverse=True)`). -/
def sortByCountDesc (l : List (String × Nat)) : List (String × Nat) :=
  l.foldr insertByCountDesc []

/-- src/translation/translator.py lines 41-51, `Translator.is_complete_sentence`:
strip and lowercase, empty text is incomplete, terminal punctuation is
complete, otherwise complete iff more than 8 words. -/
def TranslatorV1.is_complete_sentence (text : String) : Bool :=
  let t := pyLower (pyStrip text)
  if t = "" then false
  else if endsWithTerminal t then true
  else decide ((pyWords t).length > 8)

/-- The closed question-word list of src/translation/translator2.py lines 80-82. -/
def Translator2.question_words : List String :=
  ["who", "what", "when", "where", "why", "how",
   "can", "could", "will", "would", "is", "are",
   "do", "does", "did"]

/-- The common-verb list of src/translation/translator2.py lines 88-90. -/
def Translator2.common_verbs : List String :=
  ["is", "are", "was", "were", "have", "has",
   "do", "does", "did", "can", "could", "will",
   "would", "should", "must"]

/-- `text.split()[0].lower() if text.split() else ''` on the stripped text
(src/translation/translator2.py line 83). -/
def Translator2.first_word (text : String) : String :=
  match pyWords (pyStrip text) with
  | [] => ""
  | w :: _ => pyLower w

/-- src/translation/translator2.py lines 63-92, `Translator.is_complete_sentence`:
strip; empty is incomplete; terminal punctuation is complete; a leading
question word is complete; otherwise complete iff more than 6 words and one
of them is a common verb. -/
def Translator2.is_complete_sentence (text : String) : Bool :=
  let t := pyStrip text
  if t = "" then false
  else if endsWithTerminal t then true
  else if Translator2.question_words.contains (Translator2.first_word text) then true
  else
    let words := pyWords (pyLower t)
    decide (words.length > 6) && words.any (fun w => Translator2.common_verbs.contains w)

/-- One stored exchange of src/mcp/mcp2.py lines 47-54: timestamp, original
text, source language, translated text, target language, and the lowercased
token list of the original. -/
structure Exchange where
  timestamp : Nat
  original : String
  sourceLang : String
  translated : String
  targetLang : String
  tokens : List String
deriving DecidableEq

/-- The mutable state of `ConversationContext` (src/mcp/mcp2.py lines 15-34):
a `maxHistory`-bounded exchange deque, the word buffer awaiting topic
extraction, the topic set (modelled as a duplicate-free list in insertion
order), and the language-pair counters. -/
structure ConversationContext where
  maxHistory : Nat
  history : List Exchange
  topicBuffer : List String
  topics : List String
  languagePairs : List (String × Nat)
deriving DecidableEq

/-- A freshly constructed `ConversationContext` with no save file: empty
history, topic buffer, topic set and pair counters. -/
def ConversationContext.init (maxHistory : Nat) : ConversationContext :=
  ⟨maxHistory, [], [], [], []⟩

/-- The arguments of one `add_exchange` call, with the wall-clock timestamp
made explicit. -/
structure ExchangeCall where
  original : String
  sourceLang : String
  translated : String
  targetLang : String
  timestamp : Nat

/-- `" ".join(self._topic_buffer)` after appending the new original text
(src/mcp/mcp2.py lines 63-66). -/
def ConversationContext.bufferedText (ctx : ConversationContext) (original : String) : String :=
  joinSpace (ctx.topicBuffer ++ [original])

/-- `self.topics.update(extracted_topics)` (src/mcp/mcp2.py line 70): set
union, keeping existing elements and adding the new distinct ones. -/
def ConversationContext.updatedTopics (ctx : ConversationContext) (extracted : List String) : List String :=
  ctx.topics ++ (extracted.dedup.filter (fun t => ¬ ctx.topics.contains t))

/-- src/mcp/mcp2.py lines 72-74: if the topic set exceeds 100 elements keep
only the last 50 of its enumeration (set enumeration order is modelled as
insertion order). The same trim appears in src/mcp/mcp.py lines 190-192. -/
def trimTopics (topics : List String) : List String :=
  if topics.length > 100 then topics.drop (topics.length - 50) else topics

/-- src/mcp/mcp2.py lines 36-76, `ConversationContext.add_exchange`: append
the exchange to the bounded history, bump the language-pair counter, buffer
the original text, and once the buffer reaches 50 words run the YAKE keyword
extractor (an oracle here), fold the keywords into the topic set, trim the
set, and reset the buffer. -/
def ConversationContext.add_exchange (yake : String → List String)
    (ctx : ConversationContext) (call : ExchangeCall) : ConversationContext :=
  let exchange : Exchange :=
    ⟨call.timestamp, call.original, call.sourceLang, call.translated,
     call.targetLang, pyWords (pyLower call.original)⟩
  let history' := appendBounded ctx.maxHistory ctx.history exchange
  let pairs' := dictBump ctx.languagePairs (call.sourceLang ++ "->" ++ call.targetLang)
  let buffered := ctx.bufferedText call.original
  if (pyWords buffered).length ≥ 50 then
    { ctx with
      history := history'
      languagePairs := pairs'
      topics := trimTopics (ctx.updatedTopics (yake buffered))
      topicBuffer := [] }
  else
    { ctx with
      history := history'
      languagePairs := pairs'
      topicBuffer := ctx.topicBuffer ++ [call.original] }

/-- src/mcp/mcp2.py lines 215-227, `ConversationContext.get_top_topics`:
empty topic set gives no topics; otherwise each topic is scored by the
number of stored exchanges whose token list contains it, and the `n`
highest-scoring topics are returned (stable descending sort). -/
def ConversationContext.get_top_topics (ctx : ConversationContext) (n : Nat) : List String :=
  if ctx.topics.isEmpty then []
  else
    let counts := ctx.topics.map
      (fun topic => (topic, (ctx.history.filter (fun ex => ex.tokens.contains topic)).length))
    ((sortByCountDesc counts).take n).map (·.1)

/-- The closed non-terminal connector list of src/mcp/mcp2.py line 303. -/
def ContextAwareTranslator.non_terminal_endings : List String :=
  ["and", "but", "so", "because", "although", "if", "when", "which"]

/-- src/mcp/mcp2.py lines 298-312,
`ContextAwareTranslator.is_likely_incomplete_sentence`: fewer than three
words is incomplete; a clause-connector last word is incomplete; when top
topics exist and none occurs in the lowercased text, incomplete. -/
def ContextAwareTranslator.is_likely_incomplete_sentence
    (ctx : ConversationContext) (text : String) : Bool :=
  if (pyWords (pyStrip text)).length < 3 then true
  else if ContextAwareTranslator.non_terminal_endings.contains
      (pyLower (((pyWords (pyStrip text)).getLast?).getD "")) then true
  else
    let topics := ctx.get_top_topics 5
    if ¬ topics.isEmpty && ¬ topics.any (fun topic => strContains (pyLower text) topic) then true
    else false

/-- src/mcp/mcp2.py lines 314-318, `ContextAwareTranslator.is_complete_sentence`:
the base translator's check (the wrapped translator is
translation/translator2.py's `Translator`, as wired in src/main.py and
src/app2.py) conjoined with the negated context heuristic. -/
def ContextAwareTranslator.is_complete_sentence
    (ctx : ConversationContext) (text : String) : Bool :=
  Translator2.is_complete_sentence text
    && !(ContextAwareTranslator.is_likely_incomplete_sentence ctx text)

/-- `re.sub(r'([.!?])\s*', r'\1 ', t)` over a character list: every terminal
punctuation mark is followed by exactly one space, swallowing the whitespace
run that followed it. -/
def punctSpaceAux : Bool → List Char → List Char
  | _, [] => []
  | skipWs, c :: cs =>
    if skipWs ∧ c.isWhitespace then punctSpaceAux true cs
    else if c = '.' ∨ c = '!' ∨ c = '?' then c :: ' ' :: punctSpaceAux true cs
    else c :: punctSpaceAux false cs

/-- src/translation/translator2.py lines 94-98, `Translator._preprocess_text`:
collapse whitespace runs and strip (`re.sub(r'\s+', ' ', text).strip()`),
then normalize spacing after terminal punctuation. -/
def Translator2.preprocess_text (text : String) : String :=
  ⟨punctSpaceAux false (joinSpace (pyWords text)).toList⟩

/-- The mutable state of translation/translator2.py's `Translator` used by
`translate`: target language, the remembered previous source language, the
set of loaded model keys, the per-language context history (deques of
max length 3), and the performance counters. -/
structure Translator2State where
  targetLang : String
  previousSourceLang : Option String
  modelKeys : List (String × String)
  contextHistory : List (String × List String)
  lastTranslationTime : ℚ
  translationCount : Nat
  totalTranslationTime : ℚ
deriving DecidableEq

/-- `self.context_history[source_lang].append(text)` on a deque of maxlen 3
(src/translation/translator2.py lines 56-57 and 169-170). The key exists for
every loaded model; an absent key is left unchanged here. -/
def Translator2.appendContextHistory (h : List (String × List String))
    (lang text : String) : List (String × List String) :=
  h.map (fun p => if p.1 = lang then (p.1, appendBounded 3 p.2 text) else p)

/-- `target_lang or self.target_lang` (src/translation/translator2.py line
102): an omitted or empty (falsy) argument falls back to the instance's
target language. -/
def Translator2.effective_target (s : Translator2State) (targetLangArg : Option String) : String :=
  match targetLangArg with
  | some t => if t = "" then s.targetLang else t
  | none => s.targetLang

/-- Result of one `Translator.translate` call: the new state, the returned
string, and whether the Marian model was invoked. -/
structure Translator2Result where
  state : Translator2State
  output : String
  modelCalled : Bool
deriving DecidableEq

/-- The body of src/translation/translator2.py's `Translator.translate` from
line 117 on, with the source language already resolved: equal source and
target return the text unchanged; a missing model gives `""`; otherwise the
text is preprocessed, the model runs, its output is stripped, a literal
`"{}"` becomes `""`, complete sentences are appended to the context history,
and the performance counters are updated. -/
def Translator2.translateFrom (gen : String → String → String → String)
    (s : Translator2State) (src targetLang text : String)
    (transTime : ℚ) : Translator2Result :=
  if src = targetLang then ⟨s, text, false⟩
  else if ¬ s.modelKeys.contains (src, targetLang) then ⟨s, "", false⟩
  else
    let pre := Translator2.preprocess_text text
    if pre = "" then ⟨s, "", false⟩
    else
      let translated₀ := pyStrip (gen pre src targetLang)
      let translated := if translated₀ = "\x7b\x7d" then "" else translated₀
      let s₁ :=
        if Translator2.is_complete_sentence pre then
          { s with contextHistory := Translator2.appendContextHistory s.contextHistory src pre }
        else s
      ⟨{ s₁ with
          lastTranslationTime := transTime
          translationCount := s₁.translationCount + 1
          totalTranslationTime := s₁.totalTranslationTime + transTime },
       translated, true⟩

/-- src/translation/translator2.py lines 101-181, `Translator.translate`.
The tokenizer/model/decoder pipeline is the oracle `gen` (preprocessed text,
source language, target language ↦ decoded translation); `transTime` stands
for the wall-clock duration of the model call. Empty text gives `""`; a
`None` source falls back to the remembered previous source (else `""`); a
present source is remembered; the rest is `Translator2.translateFrom`. -/
def Translator2.translate (gen : String → String → String → String)
    (s : Translator2State) (text : String) (sourceLang : Option String)
    (targetLangArg : Option String) (transTime : ℚ) : Translator2Result :=
  let targetLang := Translator2.effective_target s targetLangArg
  if text = "" then ⟨s, "", false⟩
  else
    match sourceLang with
    | none =>
      match s.previousSourceLang with
      | none => ⟨s, "", false⟩
      | some src => Translator2.translateFrom gen s src targetLang text transTime
    | some src =>
      Translator2.translateFrom gen { s with previousSourceLang := some src }
        src targetLang text transTime

/-- The mutable state of src/mcp/mcp2.py's `ContextAwareTranslator` used by
`translate`: target language, the accumulating partial sentence, the
de-duplication cache `recent_translations` (key ↦ last success time), and
the wrapped conversation context manager. -/
structure ContextAwareTranslatorState where
  targetLang : String
  partialSentence : String
  recentTranslations : List (String × ℚ)
  contextManager : ConversationContext
deriving DecidableEq

/-- Result of one `ContextAwareTranslator.translate` call: the new state,
the returned translation (`None` modelled as `none`), and whether the base
translator was invoked. -/
structure ContextAwareTranslateResult where
  state : ContextAwareTranslatorState
  output : Option String
  baseCalled : Bool
deriving DecidableEq

/-- src/mcp/mcp2.py lines 324-354, `ContextAwareTranslator.translate`.
`base` is the wrapped translator's `translate` (text, source, target ↦
optional translation, `""` being falsy like `None`); `yake` feeds the
context manager's topic extraction. Empty text or a source equal to the
target returns `None`. Otherwise the text is appended to the partial
sentence; a de-duplication hit younger than 10 seconds returns `None`
silently; an incomplete partial sentence returns `None`; otherwise the base
translator runs, and on a truthy result the cache and conversation context
are updated and the partial sentence is cleared. -/
def ContextAwareTranslator.translate
    (base : String → String → String → Option String)
    (yake : String → List String)
    (s : ContextAwareTranslatorState) (text sourceLang : String)
    (now : ℚ) (timestamp : Nat) : ContextAwareTranslateResult :=
  if text = "" ∨ sourceLang = s.targetLang then ⟨s, none, false⟩
  else
    let partialSentence' := pyStrip (s.partialSentence ++ " " ++ pyStrip text)
    let s₁ := { s with partialSentence := partialSentence' }
    let key := sourceLang ++ ":" ++ pyLower partialSentence'
    let dedupHit : Bool :=
      match s.recentTranslations.lookup key with
      | some t₀ => decide (now - t₀ < 10)
      | none => false
    if dedupHit then ⟨s₁, none, false⟩
    else if ¬ ContextAwareTranslator.is_complete_sentence s.contextManager partialSentence' then
      ⟨s₁, none, false⟩
    else
      match base partialSentence' sourceLang s.targetLang with
      | none => ⟨s₁, none, true⟩
      | some tr =>
        if tr = "" then ⟨s₁, none, true⟩
        else
          ⟨{ targetLang := s.targetLang
             partialSentence := ""
             recentTranslations := dictInsert s.recentTranslations key now
             contextManager := ConversationContext.add_exchange yake s.contextManager
               ⟨partialSentence', sourceLang, tr, s.targetLang, timestamp⟩ },
           some tr, true⟩

/-- src/main.py lines 193-198: the flush condition of
`TrilingualTranslator.translation_worker` — non-empty buffer, and either the
base translator (translation/translator2.py) reports a complete sentence, or
the processing delay has elapsed since the last flush and the buffer has at
least 3 words. -/
def MainApp.flush_condition (buffer : String) (now lastProcessed delay : ℚ) : Bool :=
  buffer ≠ "" &&
    (Translator2.is_complete_sentence buffer ||
      (decide (now - lastProcessed > delay) && decide ((pyWords buffer).length ≥ 3)))

/-- src/app.py lines 139-143: the flush condition of
`TrilingualTranslator._translation_worker` — non-empty buffer, and either
the processing delay has elapsed since the last flush or the buffer has at
least 3 words. No sentence-completeness check is involved. -/
def AppV1.flush_condition (buffer : String) (now lastProcessed : ℚ) (delay : ℚ) : Bool :=
  buffer ≠ "" &&
    (decide (now - lastProcessed > delay) || decide ((pyWords buffer).length ≥ 3))

/-- The state of src/main.py's translation worker that the flush block
(lines 193-243) reads and writes: the sentence buffer, the flush clock, the
fixed processing delay, the `recent_translations` set (modelled as an
insertion-ordered duplicate-free list), the detected source language, the
target language, and the conversation context. -/
structure MainWorkerState where
  sentenceBuffer : String
  lastProcessedTime : ℚ
  processingDelay : ℚ
  recentTranslations : List String
  sourceLang : Option String
  targetLang : String
  conversationContext : ConversationContext

/-- src/main.py lines 227-229: `recent_translations.add(buffer)` then
`pop()` once the set exceeds 10 entries (`pop` removes an arbitrary element;
modelled as the oldest insertion). -/
def MainApp.addRecent (m : List String) (x : String) : List String :=
  let m' := if m.contains x then m else m ++ [x]
  if m'.length > 10 then m'.drop 1 else m'

/-- src/main.py lines 193-243: one pass of the flush block of
`translation_worker`. `translateWithContext` stands for the
`self.translator.translate_with_context(...)` call: `Except.error` is a
raised exception, which the worker's `except` clause catches *before* the
buffer-clearing line 242 runs, so the state is left untouched; any normal
return reaches line 242 and clears the buffer. On a truthy translation the
exchange is recorded and the recent-translation cache updated. -/
def MainApp.process_buffer (translateWithContext : String → Except Unit (Option String))
    (yake : String → List String) (s : MainWorkerState) (now : ℚ)
    (timestamp : Nat) : MainWorkerState × Option String :=
  if MainApp.flush_condition s.sentenceBuffer now s.lastProcessedTime s.processingDelay then
    if ¬ s.recentTranslations.contains s.sentenceBuffer ∧ s.sourceLang.isSome then
      match translateWithContext s.sentenceBuffer with
      | .error _ => (s, none)
      | .ok t =>
        match t with
        | some tr =>
          if tr ≠ "" then
            ({ s with
                conversationContext := ConversationContext.add_exchange yake
                  s.conversationContext
                  ⟨s.sentenceBuffer, s.sourceLang.getD "", tr, s.targetLang, timestamp⟩
                recentTranslations := MainApp.addRecent s.recentTranslations s.sentenceBuffer
                sentenceBuffer := ""
                lastProcessedTime := now }, some tr)
          else ({ s with sentenceBuffer := "", lastProcessedTime := now }, none)
        | none => ({ s with sentenceBuffer := "", lastProcessedTime := now }, none)
    else ({ s with sentenceBuffer := "", lastProcessedTime := now }, none)
  else (s, none)

/-- The run/pause flags of src/app.py's `TrilingualTranslator`:
`paused_event` is a `threading.Event`, true when set (running) and false
when cleared (paused). -/
structure AppV1.PipelineState where
  running : Bool
  pausedEvent : Bool
deriving DecidableEq

/-- src/app.py lines 166-170, `TrilingualTranslator.pause`: refuse (return
`False`) when not running, otherwise clear the pause event and return
`True`. -/
def AppV1.pause (s : AppV1.PipelineState) : AppV1.PipelineState × Bool :=
  if ¬ s.running then (s, false)
  else ({ s with pausedEvent := false }, true)

/-- The run/pause/shutdown flags of src/app2.py's
`OptimizedTrilingualTranslator`. -/
structure App2.PipelineState where
  running : Bool
  pausedEvent : Bool
  shutdownEvent : Bool
deriving DecidableEq

/-- src/app2.py lines 376-381, `OptimizedTrilingualTranslator.pause`: refuse
(return `False`) when not running, otherwise clear the pause event and
return `True`. -/
def App2.pause (s : App2.PipelineState) : App2.PipelineState × Bool :=
  if ¬ s.running then (s, false)
  else ({ s with pausedEvent := false }, true)

/-- `self.min_processing_delay = 0.1` (src/app2.py line 75). -/
def App2.min_processing_delay : ℚ := 1 / 10

/-- `self.max_processing_delay = 2.0` (src/app2.py line 76). -/
def App2.max_processing_delay : ℚ := 2

/-- src/app2.py lines 355-363, `_update_adaptive_delay`: exponential moving
average with α = 0.1, clamped into
`[min_processing_delay, max_processing_delay]`. -/
def App2.update_adaptive_delay (adaptiveDelay processingTime : ℚ) : ℚ :=
  let alpha : ℚ := 1 / 10
  let d := (1 - alpha) * adaptiveDelay + alpha * processingTime
  max App2.min_processing_delay (min App2.max_processing_delay d)

/-! ## Helper lemmas -/

theorem endsWithTerminal_ne_empty {s : String} (h : endsWithTerminal s = true) :
    s ≠ "" := by
  intro he
  rw [he] at h
  exact absurd h (by decide)

theorem length_appendBounded {α : Type} (n : Nat) (xs : List α) (x : α) :
    (appendBounded n xs x).length ≤ n := by
  simp only [appendBounded, List.length_drop, List.length_append, List.length_singleton]
  omega

/-! ## C5: buffers of at most two words without terminal punctuation -/

/-- C5 counterexample: the single-word buffer `"what"` has no terminal
punctuation, yet translator2.py's `is_complete_sentence` returns true (its
question-word branch fires), so the claim "every buffer of ≤ 2 words without
terminal punctuation is judged incomplete" is false on translator2.py. -/
theorem claim_C5_counterexample :
    Translator2.is_complete_sentence "what" = true ∧
    (pyWords (pyLower (pyStrip "what"))).length ≤ 2 ∧
    endsWithTerminal (pyStrip "what") = false := by
  decide

/-- C5 (amended): for every buffer of at most 2 words (counted on the
stripped, lowercased text, as the code does) that does not end in terminal
punctuation and whose first word is not one of translator2.py's question
words, both `is_complete_sentence` implementations (translator.py and
translator2.py) return false. -/
theorem claim_C5_amended (text : String)
    (h1 : endsWithTerminal (pyStrip text) = false)
    (h2 : endsWithTerminal (pyLower (pyStrip text)) = false)
    (h3 : (pyWords (pyLower (pyStrip text))).length ≤ 2)
    (h4 : Translator2.question_words.contains (Translator2.first_word text) = false) :
    Translator2.is_complete_sentence text = false ∧
    TranslatorV1.is_complete_sentence text = false := by
  have h6 : ¬ ((pyWords (pyLower (pyStrip text))).length > 6) := by omega
  have h8 : ¬ ((pyWords (pyLower (pyStrip text))).length > 8) := by omega
  constructor
  · unfold Translator2.is_complete_sentence
    by_cases he : pyStrip text = ""
    · simp [he]
    · have h4' : Translator2.first_word text ∉ Translator2.question_words := by
        simpa using h4
      simp [he, h1, h4', h6]
  · unfold TranslatorV1.is_complete_sentence
    by_cases he : pyLower (pyStrip text) = ""
    · simp [he]
    · simp [he, h2, h8]

/-- C5 witness: the amended theorem applied to the concrete buffer
`"hello there"` (two words, no terminal punctuation, no leading question
word). -/
theorem claim_C5_witness :
    Translator2.is_complete_sentence "hello there" = false ∧
    TranslatorV1.is_complete_sentence "hello there" = false :=
  claim_C5_amended "hello there" (by decide) (by decide) (by decide) (by decide)

/-! ## C1: buffers ending in terminal punctuation -/

/-- C1 counterexample: the buffer `"Hi."` ends with `'.'`, yet
mcp2.py's `ContextAwareTranslator.is_complete_sentence` (one of the three
cited sentence-completeness checks) returns false on it — the word count is
below 3, so the context heuristic overrides the punctuation rule. The claim
"returns true regardless of the buffer's word count" is therefore false for
that implementation. -/
theorem claim_C1_counterexample :
    endsWithTerminal (pyStrip "Hi.") = true ∧
    ContextAwareTranslator.is_complete_sentence (ConversationContext.init 100) "Hi." = false := by
  decide

/-- C1 (amended): for every buffer ending in `'.'`, `'!'` or `'?'`
(optionally followed by trailing whitespace — the checks run on the stripped
and, for translator.py, lowercased text), the two base checks in
translator.py and translator2.py return true regardless of word count; the
context-aware check of mcp2.py instead returns true exactly when the
`is_likely_incomplete_sentence` heuristic (word count ≥ 3, last word not a
clause connector, topical match when top topics exist) does not veto it. -/
theorem claim_C1_amended (text : String)
    (h1 : endsWithTerminal (pyStrip text) = true)
    (h2 : endsWithTerminal (pyLower (pyStrip text)) = true) :
    TranslatorV1.is_complete_sentence text = true ∧
    Translator2.is_complete_sentence text = true ∧
    ∀ ctx : ConversationContext,
      ContextAwareTranslator.is_complete_sentence ctx text =
        !(ContextAwareTranslator.is_likely_incomplete_sentence ctx text) := by
  have hne1 : pyStrip text ≠ "" := endsWithTerminal_ne_empty h1
  have hne2 : pyLower (pyStrip text) ≠ "" := endsWithTerminal_ne_empty h2
  have hv1 : TranslatorV1.is_complete_sentence text = true := by
    unfold TranslatorV1.is_complete_sentence
    simp [hne2, h2]
  have hv2 : Translator2.is_complete_sentence text = true := by
    unfold Translator2.is_complete_sentence
    simp [hne1, h1]
  refine ⟨hv1, hv2, fun ctx => ?_⟩
  unfold ContextAwareTranslator.is_complete_sentence
  rw [hv2]
  simp

/-- C1 witness: the amended theorem applied to the concrete buffer
`"He left now."` and a fresh conversation context. -/
theorem claim_C1_witness :
    TranslatorV1.is_complete_sentence "He left now." = true ∧
    Translator2.is_complete_sentence "He left now." = true ∧
    ContextAwareTranslator.is_complete_sentence (ConversationContext.init 100) "He left now." =
      !(ContextAwareTranslator.is_likely_incomplete_sentence (ConversationContext.init 100) "He left now.") :=
  ⟨(claim_C1_amended "He left now." (by decide) (by decide)).1,
   (claim_C1_amended "He left now." (by decide) (by decide)).2.1,
   (claim_C1_amended "He left now." (by decide) (by decide)).2.2 (ConversationContext.init 100)⟩

/-! ## C2: the flush condition of the translation workers -/

/-- C2 counterexample: in src/app.py the incomplete three-word buffer
`"one two three"` is flushed even though the processing delay has not
elapsed (`now = lastProcessed = 0`, delay 2) — app.py's worker ORs the two
conditions and consults no completeness check, contradicting the claim that
an incomplete buffer of ≥ 3 words is not flushed before the delay elapses. -/
theorem claim_C2_counterexample :
    AppV1.flush_condition "one two three" 0 0 2 = true ∧
    TranslatorV1.is_complete_sentence "one two three" = false ∧
    ¬ ((0:ℚ) - 0 > 2) := by
  refine ⟨?_, by decide, by norm_num⟩
  unfold AppV1.flush_condition
  rw [decide_eq_false (show ¬ ((0:ℚ) - 0 > 2) by norm_num)]
  decide

/-- C2 (amended): the claimed flush rule — complete sentence, or delay
elapsed AND at least 3 words — is the one implemented by src/main.py's
`translation_worker`; src/app.py's `_translation_worker` instead flushes
when the delay has elapsed OR the buffer has at least 3 words, so there an
incomplete buffer of ≥ 3 words is flushed immediately. Concretely: main.py
never flushes an incomplete buffer before the delay elapses, while app.py
flushes every non-empty buffer of ≥ 3 words regardless of delay. -/
theorem claim_C2_amended :
    (∀ (buffer : String) (now lastProcessed delay : ℚ),
        Translator2.is_complete_sentence buffer = false →
        ¬ (now - lastProcessed > delay) →
        MainApp.flush_condition buffer now lastProcessed delay = false)
    ∧ (∀ (buffer : String) (now lastProcessed delay : ℚ),
        buffer ≠ "" → 3 ≤ (pyWords buffer).length →
        AppV1.flush_condition buffer now lastProcessed delay = true) := by
  constructor
  · intro buffer now lastProcessed delay hc hd
    unfold MainApp.flush_condition
    rw [hc, decide_eq_false hd]
    simp
  · intro buffer now lastProcessed delay hb hw
    unfold AppV1.flush_condition
    rw [decide_eq_true hw]
    simp [hb]

/-- C2 witness: the amended theorem at the concrete incomplete three-word
buffer `"hello world one"` with `now = lastProcessed = 0` and delay 2 —
main.py's worker does not flush it, app.py's worker does. -/
theorem claim_C2_witness :
    MainApp.flush_condition "hello world one" 0 0 2 = false ∧
    AppV1.flush_condition "hello world one" 0 0 2 = true :=
  ⟨claim_C2_amended.1 "hello world one" 0 0 2 (by decide) (by norm_num),
   claim_C2_amended.2 "hello world one" 0 0 2 (by decide) (by decide)⟩

/-! ## C3: de-duplication of repeated flushes -/

/-- C3 (confirmed): in mcp2.py's `ContextAwareTranslator.translate`, if the
de-duplication cache holds the key `sourceLang + ":" +` the lowercased
accumulated buffer with a success timestamp less than 10 seconds old, the
flush is suppressed silently: the call returns `None` and the base
translator is never invoked. -/
theorem claim_C3_dedup_suppression
    (base : String → String → String → Option String)
    (yake : String → List String)
    (s : ContextAwareTranslatorState) (text sourceLang : String)
    (now t₀ : ℚ) (timestamp : Nat)
    (h1 : s.recentTranslations.lookup
        (sourceLang ++ ":" ++ pyLower (pyStrip (s.partialSentence ++ " " ++ pyStrip text)))
        = some t₀)
    (h2 : now - t₀ < 10) :
    (ContextAwareTranslator.translate base yake s text sourceLang now timestamp).output = none ∧
    (ContextAwareTranslator.translate base yake s text sourceLang now timestamp).baseCalled = false := by
  refine ⟨?_, ?_⟩ <;>
    · simp only [ContextAwareTranslator.translate, h1]
      rw [decide_eq_true h2]
      split <;> simp

/-- C3 witness: a concrete state whose cache remembers the key
`"en:thank you."` from time 0; flushing the same normalized buffer again at
time 5 with a base translator that would answer `"merci"` produces no output
and never calls the base translator. -/
theorem claim_C3_witness :
    (ContextAwareTranslator.translate (fun _ _ _ => some "merci") (fun _ => [])
        ⟨"fr", "thank", [("en:thank you.", 0)], ConversationContext.init 100⟩
        "you." "en" 5 0).output = none ∧
    (ContextAwareTranslator.translate (fun _ _ _ => some "merci") (fun _ => [])
        ⟨"fr", "thank", [("en:thank you.", 0)], ConversationContext.init 100⟩
        "you." "en" 5 0).baseCalled = false :=
  claim_C3_dedup_suppression (fun _ _ _ => some "merci") (fun _ => [])
    ⟨"fr", "thank", [("en:thank you.", 0)], ConversationContext.init 100⟩
    "you." "en" 5 0 0 (by decide) (by norm_num)

/-! ## C4: buffer clearing after failed flushes -/

/-- C4 counterexample: a flush through mcp2.py's
`ContextAwareTranslator.translate` in which the base translator fails
(returns `None`) leaves the accumulated buffer intact instead of clearing
it: with a fresh state, flushing the complete sentence `"it is done."`
invokes the base translator, produces no translation, and
`partial_sentence` still holds `"it is done."` afterwards — contradicting
the claim that a failed translation never leaves residual text in the
buffer. -/
theorem claim_C4_counterexample :
    (ContextAwareTranslator.translate (fun _ _ _ => none) (fun _ => [])
        ⟨"fr", "", [], ConversationContext.init 100⟩ "it is done." "en" 0 0).baseCalled = true ∧
    (ContextAwareTranslator.translate (fun _ _ _ => none) (fun _ => [])
        ⟨"fr", "", [], ConversationContext.init 100⟩ "it is done." "en" 0 0).output = none ∧
    (ContextAwareTranslator.translate (fun _ _ _ => none) (fun _ => [])
        ⟨"fr", "", [], ConversationContext.init 100⟩ "it is done." "en" 0 0).state.partialSentence
      = "it is done." := by
  decide

/-- C4 (amended): the clearing discipline differs between the two cited
sites. In mcp2.py's `ContextAwareTranslator.translate` the accumulated
`partial_sentence` is cleared only on a successful (truthy) translation;
whenever the base translator is invoked but yields no translation, the
appended buffer text is retained. In src/main.py's `translation_worker`, by
contrast, any flush attempt whose `translate_with_context` call returns
normally (whether or not it produced a translation) ends with the sentence
buffer cleared. -/
theorem claim_C4_amended :
    (∀ (base : String → String → String → Option String)
        (yake : String → List String) (s : ContextAwareTranslatorState)
        (text sourceLang : String) (now : ℚ) (timestamp : Nat) (out : String),
        (ContextAwareTranslator.translate base yake s text sourceLang now timestamp).output = some out →
        (ContextAwareTranslator.translate base yake s text sourceLang now timestamp).state.partialSentence = "")
    ∧ (∀ (base : String → String → String → Option String)
        (yake : String → List String) (s : ContextAwareTranslatorState)
        (text sourceLang : String) (now : ℚ) (timestamp : Nat),
        (ContextAwareTranslator.translate base yake s text sourceLang now timestamp).baseCalled = true →
        (ContextAwareTranslator.translate base yake s text sourceLang now timestamp).output = none →
        (ContextAwareTranslator.translate base yake s text sourceLang now timestamp).state.partialSentence =
          pyStrip (s.partialSentence ++ " " ++ pyStrip text))
    ∧ (∀ (oracle : String → Except Unit (Option String)) (yake : String → List String)
        (s : MainWorkerState) (now : ℚ) (timestamp : Nat) (t : Option String),
        MainApp.flush_condition s.sentenceBuffer now s.lastProcessedTime s.processingDelay = true →
        oracle s.sentenceBuffer = Except.ok t →
        (MainApp.process_buffer oracle yake s now timestamp).1.sentenceBuffer = "") := by
  refine ⟨?_, ?_, ?_⟩
  · intro base yake s text sourceLang now timestamp out
    simp only [ContextAwareTranslator.translate]
    repeat' split
    all_goals simp
  · intro base yake s text sourceLang now timestamp
    simp only [ContextAwareTranslator.translate]
    repeat' split
    all_goals simp
  · intro oracle yake s now timestamp t hf hok
    simp only [MainApp.process_buffer, hf, if_true, hok]
    repeat' split
    all_goals simp_all

/-- C4 witness: the three parts of the amended theorem at concrete inputs —
a successful flush clears mcp2's buffer, a failed base call retains it, and
a normally returning `translate_with_context` call in main.py's worker ends
with a cleared sentence buffer. -/
theorem claim_C4_witness :
    (ContextAwareTranslator.translate (fun _ _ _ => some "bonjour") (fun _ => [])
        ⟨"fr", "", [], ConversationContext.init 100⟩ "it is done." "en" 0 0).state.partialSentence = ""
    ∧ (ContextAwareTranslator.translate (fun _ _ _ => none) (fun _ => [])
        ⟨"fr", "", [], ConversationContext.init 100⟩ "it is done." "en" 0 0).state.partialSentence =
        pyStrip ("" ++ " " ++ pyStrip "it is done.")
    ∧ (MainApp.process_buffer (fun _ => Except.ok (some "salut")) (fun _ => [])
        ⟨"it is done.", 0, 2, [], some "en", "fr", ConversationContext.init 100⟩ 5 0).1.sentenceBuffer = "" :=
  ⟨claim_C4_amended.1 (fun _ _ _ => some "bonjour") (fun _ => [])
      ⟨"fr", "", [], ConversationContext.init 100⟩ "it is done." "en" 0 0 "bonjour" (by decide),
   claim_C4_amended.2.1 (fun _ _ _ => none) (fun _ => [])
      ⟨"fr", "", [], ConversationContext.init 100⟩ "it is done." "en" 0 0 (by decide) (by decide),
   claim_C4_amended.2.2 (fun _ => Except.ok (some "salut")) (fun _ => [])
      ⟨"it is done.", 0, 2, [], some "en", "fr", ConversationContext.init 100⟩ 5 0 (some "salut")
      (by decide) rfl⟩

/-! ## C6: adaptive delay stays clamped -/

/-- C6 (confirmed): starting inside
`[min_processing_delay, max_processing_delay]` = [0.1, 2.0], any finite
sequence of `_update_adaptive_delay` calls with non-negative processing
times leaves `adaptive_delay` inside the interval. -/
theorem claim_C6_adaptive_delay_bounds (d₀ : ℚ) (ts : List ℚ)
    (h₁ : App2.min_processing_delay ≤ d₀) (h₂ : d₀ ≤ App2.max_processing_delay)
    (hts : ∀ t ∈ ts, 0 ≤ t) :
    App2.min_processing_delay ≤ ts.foldl App2.update_adaptive_delay d₀ ∧
    ts.foldl App2.update_adaptive_delay d₀ ≤ App2.max_processing_delay := by
  induction ts generalizing d₀ with
  | nil => exact ⟨h₁, h₂⟩
  | cons t ts ih =>
    simp only [List.foldl_cons]
    apply ih
    · show App2.min_processing_delay ≤ App2.update_adaptive_delay d₀ t
      unfold App2.update_adaptive_delay
      exact le_max_left _ _
    · show App2.update_adaptive_delay d₀ t ≤ App2.max_processing_delay
      unfold App2.update_adaptive_delay
      exact max_le
        (by norm_num [App2.min_processing_delay, App2.max_processing_delay])
        (min_le_left _ _)
    · exact fun x hx => hts x (List.mem_cons_of_mem _ hx)

/-- C6 witness: the bound theorem at the initial delay 1.0 (the constructor
value) and the processing-time sequence [0, 5]. -/
theorem claim_C6_witness :
    App2.min_processing_delay ≤ [0, 5].foldl App2.update_adaptive_delay 1 ∧
    [0, 5].foldl App2.update_adaptive_delay 1 ≤ App2.max_processing_delay :=
  claim_C6_adaptive_delay_bounds 1 [0, 5]
    (by norm_num [App2.min_processing_delay])
    (by norm_num [App2.max_processing_delay])
    (by decide)

/-! ## C7: conversation history stays bounded -/

theorem add_exchange_maxHistory (yake : String → List String)
    (ctx : ConversationContext) (call : ExchangeCall) :
    (ConversationContext.add_exchange yake ctx call).maxHistory = ctx.maxHistory := by
  simp only [ConversationContext.add_exchange]
  split <;> rfl

theorem add_exchange_history_le (yake : String → List String)
    (ctx : ConversationContext) (call : ExchangeCall) :
    ((ConversationContext.add_exchange yake ctx call).history).length ≤ ctx.maxHistory := by
  simp only [ConversationContext.add_exchange]
  split <;> exact length_appendBounded _ _ _

theorem foldl_add_exchange_inv (yake : String → List String)
    (calls : List ExchangeCall) (ctx : ConversationContext) :
    (calls.foldl (ConversationContext.add_exchange yake) ctx).maxHistory = ctx.maxHistory ∧
    (calls ≠ [] ∨ ctx.history.length ≤ ctx.maxHistory →
      ((calls.foldl (ConversationContext.add_exchange yake) ctx).history).length ≤ ctx.maxHistory) := by
  induction calls generalizing ctx with
  | nil =>
    refine ⟨rfl, fun h => ?_⟩
    rcases h with h | h
    · exact absurd rfl h
    · exact h
  | cons c cs ih =>
    simp only [List.foldl_cons]
    obtain ⟨ihm, ihh⟩ := ih (ConversationContext.add_exchange yake ctx c)
    refine ⟨by rw [ihm, add_exchange_maxHistory], fun _ => ?_⟩
    have := ihh (Or.inr (by rw [add_exchange_maxHistory]; exact add_exchange_history_le _ _ _))
    rwa [add_exchange_maxHistory] at this

/-- C7 (confirmed): a `ConversationContext` constructed with
`max_history = N` has at most `N` stored exchanges after any finite sequence
of `add_exchange` calls (the history is a deque of maxlen `N`; the same
deque bound governs src/mcp/mcp.py's `add_exchange`). -/
theorem claim_C7_history_bounded (N : Nat) (yake : String → List String)
    (calls : List ExchangeCall) :
    ((calls.foldl (ConversationContext.add_exchange yake)
        (ConversationContext.init N)).history).length ≤ N := by
  have h := foldl_add_exchange_inv yake calls (ConversationContext.init N)
  exact h.2 (Or.inr (Nat.zero_le _))

/-! ## C8: pause is idempotent on a running pipeline -/

/-- C8 (confirmed): on a running pipeline, calling `pause()` twice (in both
src/app.py and src/app2.py) leaves exactly the state the first call
produced — the pause event stays cleared — and the second call returns the
same value as the first, performing no further state change. -/
theorem claim_C8_pause_idempotent (s₁ : AppV1.PipelineState) (s₂ : App2.PipelineState)
    (h₁ : s₁.running = true) (h₂ : s₂.running = true) :
    ((AppV1.pause (AppV1.pause s₁).1).1 = (AppV1.pause s₁).1 ∧
      (AppV1.pause s₁).1.pausedEvent = false ∧
      (AppV1.pause (AppV1.pause s₁).1).2 = (AppV1.pause s₁).2) ∧
    ((App2.pause (App2.pause s₂).1).1 = (App2.pause s₂).1 ∧
      (App2.pause s₂).1.pausedEvent = false ∧
      (App2.pause (App2.pause s₂).1).2 = (App2.pause s₂).2) := by
  constructor
  · simp [AppV1.pause, h₁]
  · simp [App2.pause, h₂]

/-- C8 witness: the idempotence theorem at the concrete running,
not-yet-paused pipeline states. -/
theorem claim_C8_witness :
    ((AppV1.pause (AppV1.pause ⟨true, true⟩).1).1 = (AppV1.pause ⟨true, true⟩).1 ∧
      (AppV1.pause (⟨true, true⟩ : AppV1.PipelineState)).1.pausedEvent = false ∧
      (AppV1.pause (AppV1.pause ⟨true, true⟩).1).2 = (AppV1.pause ⟨true, true⟩).2) ∧
    ((App2.pause (App2.pause ⟨true, true, false⟩).1).1 = (App2.pause ⟨true, true, false⟩).1 ∧
      (App2.pause (⟨true, true, false⟩ : App2.PipelineState)).1.pausedEvent = false ∧
      (App2.pause (App2.pause ⟨true, true, false⟩).1).2 = (App2.pause ⟨true, true, false⟩).2) :=
  claim_C8_pause_idempotent ⟨true, true⟩ ⟨true, true, false⟩ rfl rfl

/-! ## C9: same-language translation is the identity -/

/-- C9 (confirmed): for non-empty text, when the source language equals the
effective target language (the explicit argument, or the instance default
when the argument is omitted or falsy), translator2.py's `translate`
returns the input text unchanged and never invokes the translation model. -/
theorem claim_C9_same_language_passthrough
    (gen : String → String → String → String) (s : Translator2State)
    (text l : String) (targetLangArg : Option String) (transTime : ℚ)
    (htext : text ≠ "")
    (hl : l = Translator2.effective_target s targetLangArg) :
    (Translator2.translate gen s text (some l) targetLangArg transTime).output = text ∧
    (Translator2.translate gen s text (some l) targetLangArg transTime).modelCalled = false := by
  subst hl
  simp [Translator2.translate, Translator2.translateFrom, htext]

/-- C9 witness: translating the non-empty text `"bonjour"` with source
`"en"` while the instance target defaults to `"en"` returns `"bonjour"`
without a model call. -/
theorem claim_C9_witness :
    (Translator2.translate (fun _ _ _ => "X") ⟨"en", none, [], [], 0, 0, 0⟩
        "bonjour" (some "en") none 0).output = "bonjour" ∧
    (Translator2.translate (fun _ _ _ => "X") ⟨"en", none, [], [], 0, 0, 0⟩
        "bonjour" (some "en") none 0).modelCalled = false :=
  claim_C9_same_language_passthrough (fun _ _ _ => "X") ⟨"en", none, [], [], 0, 0, 0⟩
    "bonjour" "en" none 0 (by decide) rfl

/-! ## C10: topic set bounded by 100 with trim to 50 -/

theorem add_exchange_topics (yake : String → List String)
    (ctx : ConversationContext) (call : ExchangeCall) :
    (ConversationContext.add_exchange yake ctx call).topics =
      if (pyWords (ctx.bufferedText call.original)).length ≥ 50 then
        trimTopics (ctx.updatedTopics (yake (ctx.bufferedText call.original)))
      else ctx.topics := by
  simp only [ConversationContext.add_exchange]
  split <;> simp_all

theorem length_trimTopics_le (l : List String) : (trimTopics l).length ≤ 100 := by
  unfold trimTopics
  split
  · simp only [List.length_drop]
    omega
  · omega

theorem add_exchange_topics_le (yake : String → List String)
    (ctx : ConversationContext) (call : ExchangeCall)
    (h : ctx.topics.length ≤ 100) :
    ((ConversationContext.add_exchange yake ctx call).topics).length ≤ 100 := by
  rw [add_exchange_topics]
  split
  · exact length_trimTopics_le _
  · exact h

/-- C10 (confirmed): after every `add_exchange` call starting from a fresh
`ConversationContext` the topic set holds at most 100 topics, and whenever
a triggered topic-extraction update (buffer of ≥ 50 words) would leave the
set with more than 100 elements, the set is trimmed to exactly 50 elements
within that same call. -/
theorem claim_C10_topics_bounded :
    (∀ (N : Nat) (yake : String → List String) (calls : List ExchangeCall),
        ((calls.foldl (ConversationContext.add_exchange yake)
            (ConversationContext.init N)).topics).length ≤ 100)
    ∧ (∀ (yake : String → List String) (ctx : ConversationContext) (call : ExchangeCall),
        (pyWords (ctx.bufferedText call.original)).length ≥ 50 →
        100 < (ctx.updatedTopics (yake (ctx.bufferedText call.original))).length →
        (ConversationContext.add_exchange yake ctx call).topics =
          trimTopics (ctx.updatedTopics (yake (ctx.bufferedText call.original))) ∧
        ((ConversationContext.add_exchange yake ctx call).topics).length = 50) := by
  constructor
  · intro N yake calls
    suffices h : ∀ (ctx : ConversationContext), ctx.topics.length ≤ 100 →
        ((calls.foldl (ConversationContext.add_exchange yake) ctx).topics).length ≤ 100 by
      exact h (ConversationContext.init N) (Nat.zero_le _)
    induction calls with
    | nil => exact fun ctx h => h
    | cons c cs ih =>
      intro ctx h
      simp only [List.foldl_cons]
      exact ih _ (add_exchange_topics_le yake ctx c h)
  · intro yake ctx call h50 h100
    have heq : (ConversationContext.add_exchange yake ctx call).topics =
        trimTopics (ctx.updatedTopics (yake (ctx.bufferedText call.original))) := by
      rw [add_exchange_topics, if_pos h50]
    refine ⟨heq, ?_⟩
    rw [heq]
    unfold trimTopics
    rw [if_pos h100]
    simp only [List.length_drop]
    omega

set_option maxRecDepth 100000 in
/-- C10 witness: with an empty topic set, a 50-word buffered text and a
keyword extractor returning 101 distinct topics, the triggering
`add_exchange` call trims the updated 101-element set to exactly 50
topics. -/
theorem claim_C10_witness :
    (ConversationContext.add_exchange (fun _ => (List.range 101).map toString)
        (ConversationContext.init 100)
        ⟨joinSpace (List.replicate 50 "w"), "en", "x", "fr", 0⟩).topics =
      trimTopics ((ConversationContext.init 100).updatedTopics
        ((fun _ => (List.range 101).map toString)
          ((ConversationContext.init 100).bufferedText (joinSpace (List.replicate 50 "w"))))) ∧
    (((ConversationContext.add_exchange (fun _ => (List.range 101).map toString)
        (ConversationContext.init 100)
        ⟨joinSpace (List.replicate 50 "w"), "en", "x", "fr", 0⟩).topics)).length = 50 :=
  claim_C10_topics_bounded.2 (fun _ => (List.range 101).map toString)
    (ConversationContext.init 100)
    ⟨joinSpace (List.replicate 50 "w"), "en", "x", "fr", 0⟩
    (by decide) (by decide)
